import Mathlib

/-!
Shallow embedding of the ssdp-rs message layer (src/message/mod.rs and
src/message/search.rs) together with the parts of the crate that those two
files use but that are not present in the excerpt (the net module, the
receiver module, the SSDP message model and the header capability); the
missing parts are modelled from the specification and are marked as such in
their doc comments.  Machine integers are modelled as Nat with explicit
masking where the code masks; fallible Rust code returns Except; a Rust
panic is modelled by the PanicOr type.
-/

namespace Ssdp

/-- IPv4 address as its four octets (u8 values). -/
structure Ipv4Addr where
  o0 : Nat
  o1 : Nat
  o2 : Nat
  o3 : Nat
deriving DecidableEq, Repr

/-- Rust std Ipv4Addr::is_loopback: the address is in 127.0.0.0/8. -/
def Ipv4Addr.is_loopback (a : Ipv4Addr) : Bool :=
  a.o0 == 127

/-- IPv6 address as its eight 16-bit segments (u16 values), in the order
returned by Ipv6Addr::segments(). -/
structure Ipv6Addr where
  s0 : Nat
  s1 : Nat
  s2 : Nat
  s3 : Nat
  s4 : Nat
  s5 : Nat
  s6 : Nat
  s7 : Nat
deriving DecidableEq, Repr

/-- Rust std Ipv6Addr::is_loopback: the address equals ::1. -/
def Ipv6Addr.is_loopback (a : Ipv6Addr) : Bool :=
  a.s0 == 0 && a.s1 == 0 && a.s2 == 0 && a.s3 == 0 &&
  a.s4 == 0 && a.s5 == 0 && a.s6 == 0 && a.s7 == 1

/-- Rust std Ipv6Addr::is_unspecified: the address equals ::. -/
def Ipv6Addr.is_unspecified (a : Ipv6Addr) : Bool :=
  a.s0 == 0 && a.s1 == 0 && a.s2 == 0 && a.s3 == 0 &&
  a.s4 == 0 && a.s5 == 0 && a.s6 == 0 && a.s7 == 0

/-- Rust std Ipv6Addr::is_multicast: the first segment is in FF00::/8. -/
def Ipv6Addr.is_multicast (a : Ipv6Addr) : Bool :=
  (a.s0 &&& 0xff00) == 0xff00

/-- Bitwise complement of a 16-bit value, as Rust `!` on u16.  Every value
the code complements is first masked, hence below 2^16, so xor with 0xffff
is exactly the u16 complement. -/
def bitnot16 (x : Nat) : Nat :=
  0xffff ^^^ x

/-- Embedding of `impl IpProperties for std::net::Ipv6Addr` from
src/message/mod.rs.  Rust operator precedence applies the bitwise NOT `!`
to the masked segment before the comparison, so the conjuncts read
`(!(s0 & mask)) == value`, exactly as written in the source. -/
def Ipv6Addr.is_global_addr (a : Ipv6Addr) : Bool :=
  !a.is_multicast &&
  !a.is_loopback &&
  (bitnot16 (a.s0 &&& 0xffc0) == 0xfe80) &&
  (bitnot16 (a.s0 &&& 0xffc0) == 0xfec0) &&
  (bitnot16 (a.s0 &&& 0xfe00) == 0xfc00) &&
  !a.is_unspecified &&
  !((a.s0 == 0x2001) && (a.s1 == 0xdb8))

/-- Classification of an IPv6 address as unicast-global scope, written from
the words of the specification (link-local FE80::/10, site-local FEC0::/10,
unique-local FC00::/7, documentation 2001:DB8::/32, loopback, multicast and
unspecified addresses are not global scope).  This is the spec-side
definition used to compare against the source-side is_global_addr. -/
def Ipv6Addr.spec_global_scope (a : Ipv6Addr) : Bool :=
  !a.is_multicast &&
  !a.is_loopback &&
  ((a.s0 &&& 0xffc0) != 0xfe80) &&
  ((a.s0 &&& 0xffc0) != 0xfec0) &&
  ((a.s0 &&& 0xfe00) != 0xfc00) &&
  !a.is_unspecified &&
  !((a.s0 == 0x2001) && (a.s1 == 0xdb8))

/-- Socket address of a local interface.  get_local_addrs builds every
address with port 0, and no code under scrutiny reads the port, so the
port is omitted. -/
inductive SocketAddr where
  | v4 (a : Ipv4Addr)
  | v6 (a : Ipv6Addr)
deriving DecidableEq, Repr

/-- Modelled from the spec: IP version filtering mode of the net module
(V4Only returns only IPv4, V6Only only IPv6, Any both); the three variants
are the ones matched in all_local_connectors. -/
inductive IpVersionMode where
  | V4Only
  | V6Only
  | Any
deriving DecidableEq, Repr

/-- OS-level I/O error, carrying its message. -/
structure IoErr where
  msg : String
deriving DecidableEq, Repr

/-- Modelled from the spec: UdpConnector of the net module, one UDP socket
bound to a specific local address with a configured multicast TTL. -/
structure UdpConnector where
  addr : SocketAddr
  ttl : Option Nat
deriving DecidableEq, Repr

/-- Modelled from the spec: `UdpConnector::new(local_addr, ttl)` binds a UDP
socket to the local address and may fail with an IoError.  The outcome of
the OS bind call is the environment parameter `bind`, mapping each address
to `none` (success) or `some e` (failure with error e). -/
def UdpConnector.new (bind : SocketAddr → Option IoErr) (a : SocketAddr)
    (ttl : Option Nat) : Except IoErr UdpConnector :=
  match bind a with
  | some e => .error e
  | none => .ok { addr := a, ttl := ttl }

/-- The guard structure of the match inside map_local from
src/message/mod.rs: an address reaches the closure when it is a
non-loopback IPv4 address, or an IPv6 address that is neither loopback nor
is_global_addr; every other address falls to the silent `_` arm. -/
def map_local_keep : SocketAddr → Bool
  | .v4 n => !n.is_loopback
  | .v6 n => !n.is_loopback && !n.is_global_addr

/-- Embedding of map_local from src/message/mod.rs over the address list
returned by the OS enumeration (get_local_addrs), which is passed as the
`addrs` parameter.  The closure is invoked for every kept address in order;
`try!` at the closure call propagates the first closure error as the result
of the whole call; Some results are pushed in iteration order. -/
def map_local {R : Type} (f : SocketAddr → Except IoErr (Option R)) :
    List SocketAddr → Except IoErr (List R)
  | [] => .ok []
  | addr :: rest =>
    if map_local_keep addr then
      match f addr with
      | .error e => .error e
      | .ok none => map_local f rest
      | .ok (some x) =>
        match map_local f rest with
        | .error e => .error e
        | .ok l => .ok (x :: l)
    else
      map_local f rest

/-- Embedding of all_local_connectors from src/message/mod.rs: one
UdpConnector per kept address of the selected families; `try!` around
UdpConnector::new propagates a construction failure out of the closure. -/
def all_local_connectors (bind : SocketAddr → Option IoErr)
    (multicast_ttl : Option Nat) (filter : IpVersionMode)
    (addrs : List SocketAddr) : Except IoErr (List UdpConnector) :=
  map_local (fun addr =>
    match filter, addr with
    | .V4Only, .v4 n | .Any, .v4 n =>
      match UdpConnector.new bind (.v4 n) multicast_ttl with
      | .error e => .error e
      | .ok c => .ok (some c)
    | .V6Only, .v6 n | .Any, .v6 n =>
      match UdpConnector.new bind (.v6 n) multicast_ttl with
      | .error e => .error e
      | .ok c => .ok (some c)
    | _, _ => .ok none) addrs

/-- Whether an address family is selected by the filter mode: the family
patterns matched by the first two arms of the closure in
all_local_connectors. -/
def familyMatch : IpVersionMode → SocketAddr → Bool
  | .V4Only, .v4 _ => true
  | .Any, .v4 _ => true
  | .V6Only, .v6 _ => true
  | .Any, .v6 _ => true
  | _, _ => false

/-- Multicast socket information constants from src/message/mod.rs. -/
def UPNP_MULTICAST_IPV4_ADDR : String := "239.255.255.250"

/-- The IPv6 link-local multicast group constant from src/message/mod.rs. -/
def UPNP_MULTICAST_IPV6_LINK_LOCAL_ADDR : String := "FF02::C"

/-- The multicast port constant from src/message/mod.rs. -/
def UPNP_MULTICAST_PORT : Nat := 1900

/-- Default TTL for multicast, from src/message/mod.rs. -/
def UPNP_MULTICAST_TTL : Nat := 2

/-- The Config value object from src/message/mod.rs. -/
structure Config where
  ipv4_addr : String
  ipv6_addr : String
  port : Nat
  ttl : Nat
  mode : IpVersionMode
deriving DecidableEq, Repr

/-- Embedding of `impl Default for Config` from src/message/mod.rs. -/
def Config.default : Config :=
  { ipv4_addr := UPNP_MULTICAST_IPV4_ADDR
    ipv6_addr := UPNP_MULTICAST_IPV6_LINK_LOCAL_ADDR
    port := UPNP_MULTICAST_PORT
    ttl := UPNP_MULTICAST_TTL
    mode := IpVersionMode.Any }

/-- Config::new() from src/message/mod.rs, which returns Default::default(). -/
def Config.new : Config :=
  Config.default

/-- Config::set_ipv4_addr: consumes self and returns it with the field
replaced (the `S: Into<String>` argument is modelled as String). -/
def Config.set_ipv4_addr (c : Config) (value : String) : Config :=
  { c with ipv4_addr := value }

/-- Config::set_ipv6_addr from src/message/mod.rs. -/
def Config.set_ipv6_addr (c : Config) (value : String) : Config :=
  { c with ipv6_addr := value }

/-- Config::set_port from src/message/mod.rs. -/
def Config.set_port (c : Config) (value : Nat) : Config :=
  { c with port := value }

/-- Config::set_ttl from src/message/mod.rs. -/
def Config.set_ttl (c : Config) (value : Nat) : Config :=
  { c with ttl := value }

/-- Config::set_mode from src/message/mod.rs. -/
def Config.set_mode (c : Config) (value : IpVersionMode) : Config :=
  { c with mode := value }

/-- The MessageType enum from src/message/mod.rs. -/
inductive MessageType where
  | Notify
  | Search
  | Response
deriving DecidableEq, Repr

/-- Taxonomy of errors visible in src/message/search.rs: an SSDPError is
either an OS-level I/O error, a parse error from the message model, or the
Other variant wrapping a boxed error, which search.rs uses with a MsgError
carrying the given message.  Modelled from the spec error taxonomy plus the
constructions visible in src/message/search.rs. -/
inductive SSDPError where
  | io (msg : String)
  | parseError (msg : String)
  | other (msg : String)
deriving DecidableEq, Repr

/-- Modelled from the spec: the SSDP message model.  It owns a MessageType;
the header collection is reached only through the typed MX accessor in the
code under scrutiny, and the spec excludes the encoding of individual
header values as an external capability, so the typed view of the MX
header is carried directly as an optional u8 value. -/
structure SSDPMessage where
  msgType : MessageType
  mx : Option Nat
deriving DecidableEq, Repr

/-- SSDPMessage::new(kind): an empty message of the given kind. -/
def SSDPMessage.new (kind : MessageType) : SSDPMessage :=
  { msgType := kind, mx := none }

/-- SSDPMessage::message_type accessor. -/
def SSDPMessage.message_type (m : SSDPMessage) : MessageType :=
  m.msgType

/-- Carriage return character of the CRLF line terminator. -/
def CR : Char := Char.ofNat 13

/-- Line feed character of the CRLF line terminator. -/
def LF : Char := Char.ofNat 10

/-- The CRLF line terminator of the SSDP wire format. -/
def CRLF : String := String.mk [CR, LF]

/-- Start line of a search request on the wire. -/
def SEARCH_START_LINE : String := "M-SEARCH * HTTP/1.1"

/-- Start line of a notify message on the wire. -/
def NOTIFY_START_LINE : String := "NOTIFY * HTTP/1.1"

/-- The leading bytes every response start line shares. -/
def RESPONSE_START : String := "HTTP/1.1 "

/-- The characters of the datagram before the first carriage return: the
start line of the message. -/
def firstLine (bytes : String) : String :=
  String.mk (bytes.data.takeWhile (fun c => !(c == CR)))

/-- Modelled from the spec: SSDPMessage::raw_ssdp parses a datagram whose
start line must match one of the three patterns M-SEARCH * HTTP/1.1
(Search), NOTIFY * HTTP/1.1 (Notify) or HTTP/1.1 status reason (Response);
any other start line fails with a parse error.  The header block is not
decoded here: typed header values are an external capability per the spec,
and the claims under scrutiny concern only the start line and the kind. -/
def SSDPMessage.raw_ssdp (bytes : String) : Except SSDPError SSDPMessage :=
  let line := firstLine bytes
  if line == SEARCH_START_LINE then
    .ok (SSDPMessage.new MessageType.Search)
  else if line == NOTIFY_START_LINE then
    .ok (SSDPMessage.new MessageType.Notify)
  else if line.startsWith RESPONSE_START then
    .ok (SSDPMessage.new MessageType.Response)
  else
    .error (.parseError "invalid start line")

/-- The SearchRequest wrapper from src/message/search.rs. -/
structure SearchRequest where
  message : SSDPMessage
deriving DecidableEq, Repr

/-- SearchRequest::new from src/message/search.rs. -/
def SearchRequest.new : SearchRequest :=
  { message := SSDPMessage.new MessageType.Search }

/-- The typed MX header accessor self.get::<MX>(), delegated through the
message (HeaderRef for SearchRequest in src/message/search.rs). -/
def SearchRequest.get_MX (r : SearchRequest) : Option Nat :=
  r.message.mx

/-- The SearchResponse wrapper from src/message/search.rs. -/
structure SearchResponse where
  message : SSDPMessage
deriving DecidableEq, Repr

/-- SearchResponse::new from src/message/search.rs. -/
def SearchResponse.new : SearchResponse :=
  { message := SSDPMessage.new MessageType.Response }

/-- Embedding of `impl FromRawSSDP for SearchRequest` from
src/message/search.rs: parse the bytes, then reject any message whose kind
is not Search with the Other(MsgError) construction of the source. -/
def SearchRequest.raw_ssdp (bytes : String) : Except SSDPError SearchRequest :=
  match SSDPMessage.raw_ssdp bytes with
  | .error e => .error e
  | .ok message =>
    if message.message_type ≠ MessageType.Search then
      .error (.other "SSDP Message Received Is Not A SearchRequest")
    else
      .ok { message := message }

/-- Embedding of `impl FromRawSSDP for SearchResponse` from
src/message/search.rs. -/
def SearchResponse.raw_ssdp (bytes : String) : Except SSDPError SearchResponse :=
  match SSDPMessage.raw_ssdp bytes with
  | .error e => .error e
  | .ok message =>
    if message.message_type ≠ MessageType.Response then
      .error (.other "SSDP Message Received Is Not A SearchResponse")
    else
      .ok { message := message }

/-- Default unicast timeout constant from src/message/search.rs. -/
def DEFAULT_UNICAST_TIMEOUT : Nat := 2

/-- Duration in whole seconds, as time::Duration::seconds builds it. -/
structure Duration where
  sec : Int
deriving DecidableEq, Repr

/-- Duration::seconds from the time crate. -/
def Duration.seconds (n : Int) : Duration :=
  { sec := n }

/-- A raw UDP socket handle, identified abstractly. -/
structure Socket where
  id : Nat
deriving DecidableEq, Repr

/-- Modelled from the spec: SSDPReceiver owns the sockets it reads from and
an optional relative timeout fixed at construction.  The item type
parameter of the Rust type plays no role in the claims and is omitted. -/
structure SSDPReceiver where
  socket : Socket
  timeout : Option Duration
deriving DecidableEq, Repr

/-- Modelled from the spec: SSDPReceiver::new(sock, timeout) constructs a
receiver over the socket with the given deadline. -/
def SSDPReceiver.new (sock : Socket) (timeout : Option Duration) :
    Except IoErr SSDPReceiver :=
  .ok { socket := sock, timeout := timeout }

/-- Embedding of SearchRequest::unicast from src/message/search.rs.  The
outcome of self.message.send(local_addr, dst_addr), which lives in the
message model outside the excerpt, is the environment parameter sendFn;
the timeout is the MX header value when present, else the default. -/
def SearchRequest.unicast
    (sendFn : SSDPMessage → SocketAddr → SocketAddr → Except SSDPError Socket)
    (r : SearchRequest) (local_addr dst_addr : SocketAddr) :
    Except SSDPError SSDPReceiver :=
  match sendFn r.message local_addr dst_addr with
  | .error e => .error e
  | .ok sock =>
    let timeout : Nat :=
      match r.get_MX with
      | some n => n
      | none => DEFAULT_UNICAST_TIMEOUT
    match SSDPReceiver.new sock (some (Duration.seconds (Int.ofNat timeout))) with
    | .error e => .error (.other e.msg)
    | .ok recv => .ok recv

/-- Outcome of a Rust call that may panic instead of returning. -/
inductive PanicOr (α : Type) where
  | panicked (msg : String)
  | returns (a : α)
deriving DecidableEq, Repr

/-- Embedding of SearchRequest::multicast from src/message/search.rs: the
body is panic!("Unimplemented"). -/
def SearchRequest.multicast (_r : SearchRequest) (_local_addr : SocketAddr) :
    PanicOr SSDPReceiver :=
  .panicked "Unimplemented"

/-- Embedding of SearchResponse::unicast from src/message/search.rs: the
body is panic!("Unimplemented"). -/
def SearchResponse.unicast (_r : SearchResponse) (_dst_addr : SocketAddr) :
    PanicOr Unit :=
  .panicked "Unimplemented"

/-- A loopback IPv4 address, 127.0.0.1. -/
def loopback4 : Ipv4Addr := ⟨127, 0, 0, 1⟩

/-- A private IPv4 address, 192.168.1.2. -/
def private4 : Ipv4Addr := ⟨192, 168, 1, 2⟩

/-- A global IPv4 address, 8.8.8.8. -/
def global4 : Ipv4Addr := ⟨8, 8, 8, 8⟩

/-- A link-local IPv6 address, fe80::1. -/
def linklocal6 : Ipv6Addr := ⟨0xfe80, 0, 0, 0, 0, 0, 0, 1⟩

/-- A unicast-global IPv6 address, 2607:f8b0:4004:800::200e. -/
def global6 : Ipv6Addr := ⟨0x2607, 0xf8b0, 0x4004, 0x0800, 0, 0, 0, 0x200e⟩

/-- A bind environment in which every bind succeeds. -/
def okBind : SocketAddr → Option IoErr := fun _ => none

/-- A bind environment in which binding the private IPv4 address fails and
every other bind succeeds. -/
def bindFailPriv : SocketAddr → Option IoErr := fun a =>
  if a = SocketAddr.v4 private4 then some ⟨"bind failed"⟩ else none

/-- The synthetic address list of the interface-filtering test property: a
loopback IPv4, a private IPv4, a link-local IPv6 and a global IPv4. -/
def synthAddrs : List SocketAddr :=
  [.v4 loopback4, .v4 private4, .v6 linklocal6, .v4 global4]

/-- Connector bound to the private IPv4 address with no TTL override. -/
def cPriv : UdpConnector := ⟨.v4 private4, none⟩

/-- Connector bound to the link-local IPv6 address with no TTL override. -/
def cLL : UdpConnector := ⟨.v6 linklocal6, none⟩

/-- Connector bound to the global IPv4 address with no TTL override. -/
def cGlob : UdpConnector := ⟨.v4 global4, none⟩

/-- A send environment in which every send succeeds with socket 0. -/
def okSend : SSDPMessage → SocketAddr → SocketAddr → Except SSDPError Socket :=
  fun _ _ _ => .ok ⟨0⟩

/-- A search request whose MX header is set to 5. -/
def req5 : SearchRequest := { message := { msgType := .Search, mx := some 5 } }

/-- The serialized bytes of a notify message with no headers. -/
def notifyBytes : String := NOTIFY_START_LINE ++ CRLF ++ CRLF

/-- Masking with an even mask clears bit 0. -/
lemma land_even_testBit (x m : Nat) (hm : m % 2 = 0) :
    (x &&& m).testBit 0 = false := by
  rw [Nat.testBit_land]
  have hm0 : m.testBit 0 = false := by
    simp only [Nat.testBit_zero, hm]
    decide
  rw [hm0, Bool.and_false]

/-- The 16-bit complement of a value masked with an even mask is odd, so it
never equals an even value: the key arithmetic fact behind the defect in
the IPv6 scope test. -/
lemma bitnot16_land_ne (x m v : Nat) (hm : m % 2 = 0) (hv : v % 2 = 0) :
    bitnot16 (x &&& m) ≠ v := by
  intro h
  have h1 : (bitnot16 (x &&& m)).testBit 0 = true := by
    simp only [bitnot16]
    rw [Nat.testBit_xor, land_even_testBit x m hm]
    decide
  rw [h, Nat.testBit_zero] at h1
  simp only [decide_eq_true_eq] at h1
  omega

/-- The source classifier returns false on every IPv6 address: its third
conjunct compares the complement of a 0xffc0-masked segment, which always
has its low six bits set, against 0xfe80, whose low six bits are clear. -/
lemma is_global_addr_false_all (a : Ipv6Addr) : a.is_global_addr = false := by
  have hc : (bitnot16 (a.s0 &&& 0xffc0) == 0xfe80) = false := by
    apply beq_eq_false_iff_ne.mpr
    exact bitnot16_land_ne a.s0 0xffc0 0xfe80 (by decide) (by decide)
  simp [Ipv6Addr.is_global_addr, hc]

/-- When map_local returns ok, the closure returned ok on every kept
address of the list. -/
lemma map_local_ok_closure {R : Type} (f : SocketAddr → Except IoErr (Option R))
    (addrs : List SocketAddr) (l : List R) (h : map_local f addrs = .ok l)
    (a : SocketAddr) (ha : a ∈ addrs) (hk : map_local_keep a = true) :
    ∃ r, f a = .ok r := by
  induction addrs generalizing l with
  | nil => cases ha
  | cons b rest ih =>
    rw [map_local] at h
    by_cases hkb : map_local_keep b = true
    · rw [if_pos hkb] at h
      cases hfb : f b with
      | error e => rw [hfb] at h; cases h
      | ok o =>
        rw [hfb] at h
        rcases List.mem_cons.mp ha with rfl | hmem
        · exact ⟨o, hfb⟩
        · cases o with
          | none => exact ih l h hmem
          | some x =>
            cases hrest : map_local f rest with
            | error e => rw [hrest] at h; cases h
            | ok l2 => exact ih l2 hrest hmem
    · rw [if_neg hkb] at h
      rcases List.mem_cons.mp ha with rfl | hmem
      · exact absurd hk hkb
      · exact ih l h hmem

/-- C1: the claim states that every IPv6 address of unicast-global scope is
excluded by map_local, the closure never being invoked for it.  The code
violates this: 2607:f8b0:4004:800::200e is unicast-global by the spec-side
classification, yet the source is_global_addr returns false on it, so
map_local invokes the closure for the address and it contributes to the
output list. -/
theorem global_ipv6_not_excluded_eval :
    Ipv6Addr.spec_global_scope global6 = true ∧
    Ipv6Addr.is_global_addr global6 = false ∧
    map_local (fun a => Except.ok (some a)) [SocketAddr.v6 global6] =
      Except.ok [SocketAddr.v6 global6] :=
  ⟨by decide, by decide, by rfl⟩

/-- C2 counterexample: on the synthetic address list under mode Any,
all_local_connectors yields a connector for the link-local IPv6 address,
whereas the claim states the link-local IPv6 address is excluded; in
particular the result is not the claimed two-connector list. -/
theorem any_includes_linklocal_ipv6_cex :
    all_local_connectors okBind none IpVersionMode.Any synthAddrs =
      Except.ok [cPriv, cLL, cGlob] ∧
    all_local_connectors okBind none IpVersionMode.Any synthAddrs ≠
      Except.ok [cPriv, cGlob] :=
  ⟨by rfl, fun h => by
    have h1 : all_local_connectors okBind none IpVersionMode.Any synthAddrs =
        Except.ok [cPriv, cLL, cGlob] := by rfl
    rw [h1] at h
    exact absurd (Except.ok.inj h) (by decide)⟩

/-- C2 amended: on the synthetic address list, mode Any excludes the
loopback IPv4 and includes the private IPv4, the link-local IPv6 and the
global IPv4 in that order; mode V4Only excludes every IPv6 address
regardless of scope, yielding only the two non-loopback IPv4 connectors. -/
theorem synthetic_enumeration_amended :
    all_local_connectors okBind none IpVersionMode.Any synthAddrs =
      Except.ok [cPriv, cLL, cGlob] ∧
    all_local_connectors okBind none IpVersionMode.V4Only synthAddrs =
      Except.ok [cPriv, cGlob] :=
  ⟨by rfl, by rfl⟩

/-- C3: Ipv6Addr::is_global_addr returns false on every IPv6 address,
because the bitwise NOT applied before the equality makes the fe80
conjunct unsatisfiable; consequently the IPv6 arm of map_local keeps
exactly the non-loopback addresses, passing every non-loopback IPv6
address, global ones included, to the closure. -/
theorem is_global_addr_always_false (a : Ipv6Addr) :
    a.is_global_addr = false ∧
    map_local_keep (SocketAddr.v6 a) = !a.is_loopback := by
  refine ⟨is_global_addr_false_all a, ?_⟩
  simp [map_local_keep, is_global_addr_false_all a]

/-- C4 counterexample: with a bind environment that fails only on the
private IPv4 address, all_local_connectors over a list that also holds the
global IPv4 address returns the bind error for the whole call, even though
the connector for the other interface would have been constructed; the
claim states one failing construction does not make the call return an
error. -/
theorem bind_failure_aborts_cex :
    all_local_connectors bindFailPriv none IpVersionMode.Any
        [SocketAddr.v4 private4, SocketAddr.v4 global4] =
      Except.error ⟨"bind failed"⟩ ∧
    UdpConnector.new bindFailPriv (SocketAddr.v4 global4) none =
      Except.ok cGlob :=
  ⟨by rfl, by rfl⟩

/-- C4 amended: a construction failure for one selected interface aborts
the whole call: whenever all_local_connectors returns ok, the bind
succeeded on every kept address of a selected family, so a single failing
UdpConnector::new makes the whole call return that error rather than
collecting the other connectors. -/
theorem connectors_ok_implies_no_bind_failure
    (bind : SocketAddr → Option IoErr) (ttl : Option Nat)
    (filter : IpVersionMode) (addrs : List SocketAddr)
    (l : List UdpConnector)
    (hok : all_local_connectors bind ttl filter addrs = Except.ok l)
    (a : SocketAddr) (ha : a ∈ addrs) (hk : map_local_keep a = true)
    (hf : familyMatch filter a = true) : bind a = none := by
  rw [all_local_connectors] at hok
  obtain ⟨r, hr⟩ := map_local_ok_closure _ addrs l hok a ha hk
  cases a with
  | v4 n =>
    cases filter with
    | V4Only =>
      cases hb : bind (SocketAddr.v4 n) with
      | none => rfl
      | some e => simp [UdpConnector.new, hb] at hr
    | Any =>
      cases hb : bind (SocketAddr.v4 n) with
      | none => rfl
      | some e => simp [UdpConnector.new, hb] at hr
    | V6Only => simp [familyMatch] at hf
  | v6 n =>
    cases filter with
    | V6Only =>
      cases hb : bind (SocketAddr.v6 n) with
      | none => rfl
      | some e => simp [UdpConnector.new, hb] at hr
    | Any =>
      cases hb : bind (SocketAddr.v6 n) with
      | none => rfl
      | some e => simp [UdpConnector.new, hb] at hr
    | V4Only => simp [familyMatch] at hf

/-- Witness for the amended C4 theorem at a concrete input: a singleton
list holding the global IPv4 address under the all-succeeding bind
environment. -/
theorem connectors_ok_no_bind_failure_witness :
    okBind (SocketAddr.v4 global4) = none :=
  connectors_ok_implies_no_bind_failure okBind none IpVersionMode.Any
    [SocketAddr.v4 global4] [cGlob] (by rfl) (SocketAddr.v4 global4)
    (by simp) (by decide) (by decide)

/-- C5 counterexample: at a concrete request and local address,
SearchRequest::multicast panics with Unimplemented instead of resolving
interfaces, sending, and returning a Receiver normally as the claim
states. -/
theorem multicast_panics_cex :
    SearchRequest.multicast SearchRequest.new (SocketAddr.v4 global4) =
      PanicOr.panicked "Unimplemented" :=
  rfl

/-- C5 amended: SearchRequest::multicast is a stub: for every request and
local address it panics unconditionally with Unimplemented; it never sends
and never returns a Receiver. -/
theorem multicast_always_panics (r : SearchRequest) (local_addr : SocketAddr) :
    SearchRequest.multicast r local_addr = PanicOr.panicked "Unimplemented" :=
  rfl

/-- C6: whenever SearchRequest::unicast succeeds, the timeout of the
returned receiver is the MX header value in seconds when the MX header is
set, and the default of 2 seconds when it is absent. -/
theorem unicast_timeout_from_mx
    (sendFn : SSDPMessage → SocketAddr → SocketAddr → Except SSDPError Socket)
    (r : SearchRequest) (la da : SocketAddr) (recv : SSDPReceiver)
    (hok : SearchRequest.unicast sendFn r la da = Except.ok recv) :
    (∀ n, r.get_MX = some n →
      recv.timeout = some (Duration.seconds (Int.ofNat n))) ∧
    (r.get_MX = none → recv.timeout = some (Duration.seconds 2)) := by
  cases hs : sendFn r.message la da with
  | error e => rw [SearchRequest.unicast, hs] at hok; cases hok
  | ok sock =>
    constructor
    · intro n hmx
      rw [SearchRequest.unicast, hs] at hok
      simp only [hmx, SSDPReceiver.new] at hok
      cases hok
      rfl
    · intro hmx
      rw [SearchRequest.unicast, hs] at hok
      simp only [hmx, SSDPReceiver.new, DEFAULT_UNICAST_TIMEOUT] at hok
      cases hok
      rfl

/-- Witness for C6 at a concrete input: a request with MX set to 5 and an
always-succeeding send environment yields a receiver whose timeout is 5
seconds. -/
theorem unicast_timeout_witness :
    SearchRequest.unicast okSend req5 (SocketAddr.v4 global4)
        (SocketAddr.v4 loopback4) =
      Except.ok ⟨⟨0⟩, some (Duration.seconds 5)⟩ ∧
    (⟨⟨0⟩, some (Duration.seconds 5)⟩ : SSDPReceiver).timeout =
      some (Duration.seconds (Int.ofNat 5)) :=
  ⟨rfl,
   (unicast_timeout_from_mx okSend req5 (SocketAddr.v4 global4)
      (SocketAddr.v4 loopback4) ⟨⟨0⟩, some (Duration.seconds 5)⟩ rfl).1 5 rfl⟩

/-- C7: for every byte sequence that parses as a valid SSDP message of a
kind other than the expected one, the typed raw parse fails with the
kind-mismatch Other error of the source, and that error is distinct from
the parse-error and io variants. -/
theorem raw_ssdp_kind_mismatch (bytes : String) (m : SSDPMessage)
    (hp : SSDPMessage.raw_ssdp bytes = Except.ok m) :
    (m.message_type ≠ MessageType.Search →
      SearchRequest.raw_ssdp bytes =
        Except.error (SSDPError.other "SSDP Message Received Is Not A SearchRequest")) ∧
    (m.message_type ≠ MessageType.Response →
      SearchResponse.raw_ssdp bytes =
        Except.error (SSDPError.other "SSDP Message Received Is Not A SearchResponse")) ∧
    (∀ s t : String, SSDPError.other s ≠ SSDPError.parseError t) ∧
    (∀ s t : String, SSDPError.other s ≠ SSDPError.io t) := by
  refine ⟨?_, ?_, fun s t h => SSDPError.noConfusion h,
    fun s t h => SSDPError.noConfusion h⟩
  · intro hk
    rw [SearchRequest.raw_ssdp, hp]
    exact if_pos hk
  · intro hk
    rw [SearchResponse.raw_ssdp, hp]
    exact if_pos hk

/-- Witness for C7 at a concrete input: the serialized bytes of a notify
message parse as a Notify message, and both typed raw parses reject them
with their kind-mismatch errors. -/
theorem raw_ssdp_kind_mismatch_witness :
    SSDPMessage.raw_ssdp notifyBytes =
      Except.ok (SSDPMessage.new MessageType.Notify) ∧
    SearchRequest.raw_ssdp notifyBytes =
      Except.error (SSDPError.other "SSDP Message Received Is Not A SearchRequest") ∧
    SearchResponse.raw_ssdp notifyBytes =
      Except.error (SSDPError.other "SSDP Message Received Is Not A SearchResponse") :=
  ⟨rfl,
   (raw_ssdp_kind_mismatch notifyBytes (SSDPMessage.new MessageType.Notify)
      rfl).1 (by decide),
   (raw_ssdp_kind_mismatch notifyBytes (SSDPMessage.new MessageType.Notify)
      rfl).2.1 (by decide)⟩

/-- C8: Config::new, which returns Default::default, yields the standard
UPnP multicast group 239.255.255.250 at port 1900, the FF02::C link-local
IPv6 group, and the default TTL of 2. -/
theorem config_defaults :
    Config.new = Config.default ∧
    Config.new.ipv4_addr = "239.255.255.250" ∧
    Config.new.ipv6_addr = "FF02::C" ∧
    Config.new.port = 1900 ∧
    Config.new.ttl = 2 :=
  ⟨rfl, rfl, rfl, rfl, rfl⟩

/-- C9: each builder setter of Config replaces exactly its targeted field
with the given value and leaves the other four fields unchanged; the
setter is a pure function of the consumed value. -/
theorem config_setters_frame (c : Config) (a4 a6 : String) (p t : Nat)
    (m : IpVersionMode) :
    ((c.set_ipv4_addr a4).ipv4_addr = a4 ∧
     (c.set_ipv4_addr a4).ipv6_addr = c.ipv6_addr ∧
     (c.set_ipv4_addr a4).port = c.port ∧
     (c.set_ipv4_addr a4).ttl = c.ttl ∧
     (c.set_ipv4_addr a4).mode = c.mode) ∧
    ((c.set_ipv6_addr a6).ipv6_addr = a6 ∧
     (c.set_ipv6_addr a6).ipv4_addr = c.ipv4_addr ∧
     (c.set_ipv6_addr a6).port = c.port ∧
     (c.set_ipv6_addr a6).ttl = c.ttl ∧
     (c.set_ipv6_addr a6).mode = c.mode) ∧
    ((c.set_port p).port = p ∧
     (c.set_port p).ipv4_addr = c.ipv4_addr ∧
     (c.set_port p).ipv6_addr = c.ipv6_addr ∧
     (c.set_port p).ttl = c.ttl ∧
     (c.set_port p).mode = c.mode) ∧
    ((c.set_ttl t).ttl = t ∧
     (c.set_ttl t).ipv4_addr = c.ipv4_addr ∧
     (c.set_ttl t).ipv6_addr = c.ipv6_addr ∧
     (c.set_ttl t).port = c.port ∧
     (c.set_ttl t).mode = c.mode) ∧
    ((c.set_mode m).mode = m ∧
     (c.set_mode m).ipv4_addr = c.ipv4_addr ∧
     (c.set_mode m).ipv6_addr = c.ipv6_addr ∧
     (c.set_mode m).port = c.port ∧
     (c.set_mode m).ttl = c.ttl) :=
  ⟨⟨rfl, rfl, rfl, rfl, rfl⟩, ⟨rfl, rfl, rfl, rfl, rfl⟩,
   ⟨rfl, rfl, rfl, rfl, rfl⟩, ⟨rfl, rfl, rfl, rfl, rfl⟩,
   ⟨rfl, rfl, rfl, rfl, rfl⟩⟩

/-- C10: SearchResponse::unicast is a stubbed-unreachable operation: for
every response value and destination address the call panics
unconditionally with Unimplemented and never returns normally. -/
theorem search_response_unicast_panics (r : SearchResponse)
    (dst : SocketAddr) :
    SearchResponse.unicast r dst = PanicOr.panicked "Unimplemented" :=
  rfl

end Ssdp
